import Mathlib

/-!
Verification of the auditless py-solc-x wrapper (`auditless_solcx/main.py`).

The wrapper intercepts three solcx entry points (`compile_standard`,
`compile_files`, `compile_source`), normalizes each call into a canonical
standard-JSON document, resolves a compiler version, persists a build-info
artifact, and then delegates to the original entry point.

Shallow embedding conventions:
* Python dicts that the code treats as JSON objects are association lists
  `List (String × JVal)` (insertion order preserved, as in Python dicts).
* A source entry is a record of the two keys the code reads and writes
  (`content`, `urls`), each optional.
* The filesystem is an oracle `String → Option String` (`none` = `open`
  raises; `some c` = the file reads as `c`).
* The external solcx toolchain probe (`get_executable` composed with
  `_get_solc_version`) is an oracle `Option String → Except CompileError String`
  taking the `solc_binary` argument.
* Writing the artifact file is an oracle boolean `writeOk` (`false` = the
  write raises).  The artifact's random filename carries no information, so
  an artifact is modelled by its content alone.
* Python exceptions become `Except` errors; distinct raise sites get
  distinct constructors (including built-in exceptions such as `OSError`
  from `open`, `IndexError` from `urls[-1]`, and `AttributeError` from a
  missing method).
-/

namespace AuditlessSolcx

/-- A JSON-like Python value, as stored in `settings` and other dict slots. -/
inductive JVal : Type where
  | str : String → JVal
  | strList : List String → JVal
  | bool : Bool → JVal
  | int : Int → JVal
  | obj : List (String × JVal) → JVal

/-- One value of `input_data["sources"]`: the code only ever reads the
`"urls"` key and writes `dict(content=...)`, so the entry is modelled by
those two optional keys. -/
structure SourceEntry where
  content : Option String
  urls : Option (List String)
deriving DecidableEq

/-- A standard-JSON input document `{language, sources, settings, ...}`.
`rest` holds any further top-level keys of the dict; the wrapper never
touches them. -/
structure InputDoc where
  language : String
  sources : List (String × SourceEntry)
  settings : List (String × JVal)
  rest : List (String × JVal)

/-- A dynamically typed option value (`Union[Dict, List, str]`), as received
by `_normalize_solidity_input`.  Scalars are kept as strings (`str` of a
string is the identity). -/
inductive PyVal : Type where
  | dict : List (String × String) → PyVal
  | list : List String → PyVal
  | scalar : String → PyVal
deriving DecidableEq

/-- The `source_files` argument: a list of paths or a single path
(`Union[List, Path, str]`). -/
inductive PySources : Type where
  | files : List String → PySources
  | single : String → PySources
deriving DecidableEq

/-- Failure causes.  `AuditlessSolcxException` raise sites and the Python
built-in exceptions that can escape the wrapper each get a constructor. -/
inductive CompileError : Type where
  /-- line 40: remote file compilation is unsupported. -/
  | unsupportedRemoteSource : String → CompileError
  /-- `open(last_url)` raised (built-in `OSError`). -/
  | openFailure : String → CompileError
  /-- line 45: `content is None` guard («Could not read file contents»). -/
  | readFailure : String → CompileError
  /-- `urls[-1]` on an empty list (built-in `IndexError`). -/
  | indexError : CompileError
  /-- line 311: no source files specified. -/
  | missingSource : CompileError
  /-- lines 55/356: a base path was provided. -/
  | unsupportedBasePath : CompileError
  /-- line 339: YUL optimization is not supported. -/
  | unsupportedYulOptimizations : CompileError
  /-- line 257: `dict` has no method `iter` (built-in `AttributeError`). -/
  | attributeError : CompileError
  /-- external version probe failed (`get_executable`/`_get_solc_version`). -/
  | versionResolutionFailure : CompileError
  /-- the artifact file could not be written. -/
  | persistenceFailure : CompileError
deriving DecidableEq

/-- `listStarts n h` : the list `h` starts with `n`. -/
def listStarts : List Char → List Char → Bool
  | [], _ => true
  | _ :: _, [] => false
  | a :: as, b :: bs => a == b && listStarts as bs

/-- `listHasSub n h` : `n` occurs as a contiguous sublist of `h`. -/
def listHasSub (n : List Char) : List Char → Bool
  | [] => listStarts n []
  | b :: bs => listStarts n (b :: bs) || listHasSub n bs

/-- Python's substring test `needle in hay`. -/
def strIn (needle hay : String) : Bool :=
  listHasSub needle.data hay.data

/-- Body of the `_resolve_urls` loop for one entry of `sources`
(main.py lines 36-46).  If the entry has no `urls` key it is left alone;
otherwise the last url is checked for the two remote markers, opened and
read, the dead `content is None` guard is evaluated, and the entry is
replaced by `dict(content=content)`. -/
def resolve_entry (fs : String → Option String) (e : SourceEntry) :
    Except CompileError SourceEntry :=
  match e.urls with
  | none => Except.ok e
  | some urls =>
    match urls.getLast? with
    | none => Except.error CompileError.indexError
    | some last_url =>
      if strIn "ipfs://" last_url || strIn "bzzr:" last_url then
        Except.error (CompileError.unsupportedRemoteSource last_url)
      else
        match fs last_url with
        | none => Except.error (CompileError.openFailure last_url)
        | some text =>
          -- `content = f.read()` : `content` is now a string, never `None`
          let content : Option String := some text
          if content = none then
            Except.error (CompileError.readFailure last_url)
          else
            Except.ok { content := content, urls := none }

/-- The `for filename in input_data["sources"]` loop of `_resolve_urls`:
rewrite every entry in order, stopping at the first exception. -/
def resolve_sources (fs : String → Option String) :
    List (String × SourceEntry) →
    Except CompileError (List (String × SourceEntry))
  | [] => Except.ok []
  | p :: t =>
    match resolve_entry fs p.2 with
    | Except.error e => Except.error e
    | Except.ok e =>
      match resolve_sources fs t with
      | Except.error e2 => Except.error e2
      | Except.ok t' => Except.ok ((p.1, e) :: t')

/-- `_resolve_urls` (main.py lines 33-47). -/
def resolve_urls (fs : String → Option String) (doc : InputDoc) :
    Except CompileError InputDoc :=
  match resolve_sources fs doc.sources with
  | Except.error e => Except.error e
  | Except.ok sources => Except.ok { doc with sources := sources }

/-- `_extract_combined_json_from_compile_standard` (lines 50-63): resolve
urls, then reject a non-null `base_path`. -/
def extract_combined_json_from_compile_standard (fs : String → Option String)
    (input_data : InputDoc) (base_path : Option String) :
    Except CompileError InputDoc :=
  match resolve_urls fs input_data with
  | Except.error e => Except.error e
  | Except.ok input_data =>
    match base_path with
    | some _ => Except.error CompileError.unsupportedBasePath
    | none => Except.ok input_data

/-- `_determine_solidity_version` (lines 21-30): an explicit version is
used verbatim; otherwise the external toolchain is probed with the given
`solc_binary`. -/
def determine_solidity_version
    (probe : Option String → Except CompileError String)
    (solc_binary : Option String) (solc_version : Option String) :
    Except CompileError String :=
  match solc_version with
  | some v => Except.ok v
  | none => probe solc_binary

/-- The content of one persisted build-info artifact
(`_save_artifacts`, lines 66-73). -/
structure BuildInfo where
  format : String
  solcVersion : String
  input : InputDoc

/-- `_save_artifacts` (lines 66-73): write
`{_format, solcVersion, input}` to a fresh random filename; the write
itself may fail (`writeOk = false`). -/
def save_artifacts (writeOk : Bool) (standard_json : InputDoc)
    (solc_version : String) : Except CompileError BuildInfo :=
  if writeOk then
    Except.ok { format := "hh-sol-build-info-1", solcVersion := solc_version,
                input := standard_json }
  else
    Except.error CompileError.persistenceFailure

/-- Split a character list on a separator character. -/
def splitOnChar (c : Char) : List Char → List (List Char)
  | [] => [[]]
  | x :: xs =>
    match splitOnChar c xs with
    | [] => if x == c then [[], []] else [[x]]
    | h :: t => if x == c then [] :: h :: t else (x :: h) :: t

/-- `_filename` (lines 265-269): `Path(path).name`, modelled for POSIX
paths as the last nonempty `/`-separated component. -/
def filename_of (path : String) : String :=
  String.mk
    ((((splitOnChar '/' path.data).filter
      (fun l => l ≠ [])).getLast?).getD [])

/-- `_normalize_solidity_input` (lines 254-262).  The `dict` branch calls
`solidity_input.iter()`, a method Python dicts do not have, so it raises
`AttributeError` (the comprehension `f"{k}={v}"` is never reached); a list
is mapped through `str` (identity on strings); any other non-null value is
stringified as a bare scalar; null yields no key. -/
def normalize_solidity_input (name : String) (v : Option PyVal) :
    Except CompileError (List (String × JVal)) :=
  match v with
  | some (PyVal.dict _) => Except.error CompileError.attributeError
  | some (PyVal.list l) => Except.ok [(name, JVal.strList (l.map (fun s => s)))]
  | some (PyVal.scalar s) => Except.ok [(name, JVal.str s)]
  | none => Except.ok []

/-- Python dict insertion: an existing key keeps its position and takes the
new value, a new key is appended. -/
def pyDictInsert (kvs : List (String × SourceEntry)) (k : String)
    (v : SourceEntry) : List (String × SourceEntry) :=
  if kvs.any (fun kv => kv.1 = k) then
    kvs.map (fun kv => if kv.1 = k then (k, v) else kv)
  else
    kvs ++ [(k, v)]

/-- A Python dict comprehension over a list of key-value pairs. -/
def pyDictOfList (l : List (String × SourceEntry)) :
    List (String × SourceEntry) :=
  l.foldl (fun acc kv => pyDictInsert acc kv.1 kv.2) []

/-- Source selection in `extract_combined_json_from_compile_combined_json`
(lines 303-311): a file list, a single file, stdin, or the
`MissingSource` failure, in that order of precedence. -/
def select_sources (source_files : Option PySources) (stdin : Option String) :
    Except CompileError (List (String × SourceEntry)) :=
  match source_files with
  | some (PySources.files l) =>
      Except.ok (pyDictOfList (l.map (fun p =>
        (filename_of p, { content := none, urls := some [p] }))))
  | some (PySources.single p) =>
      Except.ok [(filename_of p, { content := none, urls := some [p] })]
  | none =>
    match stdin with
    | some s => Except.ok [("<stdin>", { content := some s, urls := none })]
    | none => Except.error CompileError.missingSource

/-- The `metadata` sub-dict (lines 313-321). -/
def metadata_part (metadata_hash : Option String) (metadata_literal : Bool) :
    List (String × JVal) :=
  let kvs :=
    (match metadata_hash with
     | some h => [("bytecodeHash", JVal.str h)]
     | none => []) ++
    (if metadata_literal then [("useLiteralContent", JVal.bool true)] else [])
  match kvs with
  | [] => []
  | _ => [("metadata", JVal.obj kvs)]

/-- The `optimizer` sub-dict (lines 323-337). -/
def optimizer_part (optimize : Bool) (optimize_runs : Option Int)
    (optimize_yul : Bool) : List (String × JVal) :=
  let kvs :=
    (if optimize then [("enabled", JVal.bool true)] else []) ++
    (match optimize_runs with
     | some r => [("runs", JVal.int r)]
     | none => []) ++
    (if optimize_yul then [("details", JVal.obj [("yul", JVal.bool true)])]
     else [])
  match kvs with
  | [] => []
  | _ => [("optimizer", JVal.obj kvs)]

/-- The part of `extract_combined_json_from_compile_combined_json` after
the sources have been selected (lines 313-364): build the settings parts,
reject `yul_optimizations`, normalize the remaining options, merge them
into `settings` in source order, resolve urls and reject a base path. -/
def finish_extract (fs : String → Option String)
    (sources : List (String × SourceEntry))
    (import_remappings : Option PyVal) (base_path : Option String)
    (evm_version : Option String) (revert_strings : Option JVal)
    (metadata_hash : Option String) (metadata_literal : Bool)
    (optimize : Bool) (optimize_runs : Option Int) (optimize_yul : Bool)
    (yul_optimizations : Option Int) : Except CompileError InputDoc :=
  let metadata := metadata_part metadata_hash metadata_literal
  let optimizer := optimizer_part optimize optimize_runs optimize_yul
  match yul_optimizations with
  | some _ => Except.error CompileError.unsupportedYulOptimizations
  | none =>
    match normalize_solidity_input "remappings" import_remappings with
    | Except.error e => Except.error e
    | Except.ok remappings =>
      match normalize_solidity_input "evmVersion"
          (evm_version.map PyVal.scalar) with
      | Except.error e => Except.error e
      | Except.ok evm =>
        let debugPart :=
          match revert_strings with
          | none => []
          | some v => [("debug", JVal.obj [("revertStrings", v)])]
        let input_data : InputDoc :=
          { language := "Solidity", sources := sources,
            settings :=
              remappings ++ evm ++ debugPart ++ metadata ++ optimizer,
            rest := [] }
        -- lines 353-363 repeat the body of
        -- `_extract_combined_json_from_compile_standard` verbatim
        extract_combined_json_from_compile_standard fs input_data base_path

/-- `extract_combined_json_from_compile_combined_json` (lines 272-364). -/
def extract_combined_json_from_compile_combined_json
    (fs : String → Option String)
    (source_files : Option PySources) (import_remappings : Option PyVal)
    (base_path : Option String) (evm_version : Option String)
    (revert_strings : Option JVal) (metadata_hash : Option String)
    (metadata_literal : Bool) (optimize : Bool) (optimize_runs : Option Int)
    (optimize_yul : Bool) (yul_optimizations : Option Int)
    (stdin : Option String) : Except CompileError InputDoc :=
  match select_sources source_files stdin with
  | Except.error e => Except.error e
  | Except.ok sources =>
    finish_extract fs sources import_remappings base_path evm_version
      revert_strings metadata_hash metadata_literal optimize optimize_runs
      optimize_yul yul_optimizations

/-- `_compile_combined_json` (lines 367-432): normalize, resolve the
version, persist; returns the artifact that was written. -/
def compile_combined_json (fs : String → Option String)
    (probe : Option String → Except CompileError String) (writeOk : Bool)
    (solc_binary : Option String) (solc_version : Option String)
    (source_files : Option PySources) (import_remappings : Option PyVal)
    (base_path : Option String) (evm_version : Option String)
    (revert_strings : Option JVal) (metadata_hash : Option String)
    (metadata_literal : Bool) (optimize : Bool) (optimize_runs : Option Int)
    (optimize_yul : Bool) (yul_optimizations : Option Int)
    (stdin : Option String) : Except CompileError BuildInfo :=
  match extract_combined_json_from_compile_combined_json fs
      source_files import_remappings base_path evm_version revert_strings
      metadata_hash metadata_literal optimize optimize_runs optimize_yul
      yul_optimizations stdin with
  | Except.error e => Except.error e
  | Except.ok input_data =>
    match determine_solidity_version probe solc_binary solc_version with
    | Except.error e => Except.error e
    | Except.ok v => save_artifacts writeOk input_data v

/-- The argument tuple of `compile_standard` (both the wrapper and the
original solcx entry point, lines 79-88). -/
structure StdArgs where
  input_data : InputDoc
  base_path : Option String
  allow_paths : Option (List String)
  output_dir : Option String
  overwrite : Bool
  solc_binary : Option String
  solc_version : Option String
  allow_empty : Bool

/-- The argument tuple of `compile_files` (lines 112-132). -/
structure FilesArgs where
  source_files : PySources
  output_values : Option (List String)
  import_remappings : Option PyVal
  base_path : Option String
  allow_paths : Option (List String)
  output_dir : Option String
  overwrite : Bool
  evm_version : Option String
  revert_strings : Option JVal
  metadata_hash : Option String
  metadata_literal : Bool
  optimize : Bool
  optimize_runs : Option Int
  optimize_yul : Bool
  no_optimize_yul : Bool
  yul_optimizations : Option Int
  solc_binary : Option String
  solc_version : Option String
  allow_empty : Bool

/-- The argument tuple of `compile_source` (lines 185-204). -/
structure SourceArgs where
  source : String
  output_values : Option (List String)
  import_remappings : Option PyVal
  base_path : Option String
  allow_paths : Option (List String)
  output_dir : Option String
  overwrite : Bool
  evm_version : Option String
  revert_strings : Option JVal
  metadata_hash : Option String
  metadata_literal : Bool
  optimize : Bool
  optimize_runs : Option Int
  optimize_yul : Bool
  no_optimize_yul : Bool
  yul_optimizations : Option Int
  solc_binary : Option String
  solc_version : Option String
  allow_empty : Bool

/-- The observable outcome of one wrapped call: the artifact files it
wrote, the argument tuples it passed to the original entry point, and its
result (the backend's return value, or the exception that escaped). -/
structure RunRecord (A : Type) (B : Type) where
  written : List BuildInfo
  backendCalls : List A
  result : Except CompileError B

/-- The wrapped `compile_standard` (lines 79-106).  Note that the local
variables `input_data` and `solc_version` are reassigned before the
original entry point is called, so the backend receives the resolved
document and the determined version. -/
def compile_standard_run {B : Type} (fs : String → Option String)
    (probe : Option String → Except CompileError String) (writeOk : Bool)
    (backend : StdArgs → B) (a : StdArgs) : RunRecord StdArgs B :=
  match extract_combined_json_from_compile_standard fs a.input_data
      a.base_path with
  | Except.error e => ⟨[], [], Except.error e⟩
  | Except.ok input2 =>
    match determine_solidity_version probe a.solc_binary a.solc_version with
    | Except.error e => ⟨[], [], Except.error e⟩
    | Except.ok v =>
      match save_artifacts writeOk input2 v with
      | Except.error e => ⟨[], [], Except.error e⟩
      | Except.ok art =>
        let a2 := { a with input_data := input2, solc_version := some v }
        ⟨[art], [a2], Except.ok (backend a2)⟩

/-- The wrapped `compile_files` (lines 112-179).  The call to
`_compile_combined_json` at lines 134-155 forwards every flag except
`optimize_yul`, which therefore keeps its default `false` in the persisted
document; the original entry point is then called with the caller's
arguments, `optimize_yul` included. -/
def compile_files_run {B : Type} (fs : String → Option String)
    (probe : Option String → Except CompileError String) (writeOk : Bool)
    (backend : FilesArgs → B) (a : FilesArgs) : RunRecord FilesArgs B :=
  match compile_combined_json fs probe writeOk a.solc_binary a.solc_version
      (some a.source_files) a.import_remappings a.base_path a.evm_version
      a.revert_strings a.metadata_hash a.metadata_literal a.optimize
      a.optimize_runs false a.yul_optimizations none with
  | Except.error e => ⟨[], [], Except.error e⟩
  | Except.ok art => ⟨[art], [a], Except.ok (backend a)⟩

/-- The wrapped `compile_source` (lines 185-251).  As with `compile_files`,
the call to `_compile_combined_json` at lines 206-227 forwards every flag
except `optimize_yul`; the source string is passed as `stdin`. -/
def compile_source_run {B : Type} (fs : String → Option String)
    (probe : Option String → Except CompileError String) (writeOk : Bool)
    (backend : SourceArgs → B) (a : SourceArgs) : RunRecord SourceArgs B :=
  match compile_combined_json fs probe writeOk a.solc_binary a.solc_version
      none a.import_remappings a.base_path a.evm_version
      a.revert_strings a.metadata_hash a.metadata_literal a.optimize
      a.optimize_runs false a.yul_optimizations (some a.source) with
  | Except.error e => ⟨[], [], Except.error e⟩
  | Except.ok art => ⟨[art], [a], Except.ok (backend a)⟩

/-! ### Concrete fixtures for witnesses and counterexamples -/

/-- A filesystem with one readable contract file. -/
def fsA : String → Option String :=
  fun p => if p = "c.sol" then some "contract C" else none

/-- A filesystem with one readable-but-empty file. -/
def fsB : String → Option String :=
  fun p => if p = "empty.sol" then some "" else none

/-- A toolchain probe that always reports version 0.7.6. -/
def probeA : Option String → Except CompileError String :=
  fun _ => Except.ok "0.7.6"

/-- A `compile_files` call on one file with `optimize_yul := true` and all
other options at their defaults. -/
def filesArgsA : FilesArgs :=
  { source_files := PySources.single "c.sol", output_values := none,
    import_remappings := none, base_path := none, allow_paths := none,
    output_dir := none, overwrite := false, evm_version := none,
    revert_strings := none, metadata_hash := none, metadata_literal := false,
    optimize := false, optimize_runs := none, optimize_yul := true,
    no_optimize_yul := false, yul_optimizations := none, solc_binary := none,
    solc_version := none, allow_empty := false }

/-- `filesArgsA` with the unsupported `yul_optimizations` set, so the call
fails during normalization. -/
def filesArgsBad : FilesArgs :=
  { filesArgsA with yul_optimizations := some 1 }

/-- A `compile_source` call with only a literal source string. -/
def sourceArgsA : SourceArgs :=
  { source := "contract S", output_values := none, import_remappings := none,
    base_path := none, allow_paths := none, output_dir := none,
    overwrite := false, evm_version := none, revert_strings := none,
    metadata_hash := none, metadata_literal := false, optimize := false,
    optimize_runs := none, optimize_yul := false, no_optimize_yul := false,
    yul_optimizations := none, solc_binary := none, solc_version := none,
    allow_empty := false }

/-- A canonical document with two in-memory sources. -/
def docA : InputDoc :=
  { language := "Solidity",
    sources := [("file1", { content := some "contract A", urls := none }),
                ("file2", { content := some "contract B", urls := none })],
    settings := [("outputSelection", JVal.obj [])], rest := [] }

/-- A `compile_standard` call on `docA` with an explicit version. -/
def stdArgsA : StdArgs :=
  { input_data := docA, base_path := none, allow_paths := none,
    output_dir := none, overwrite := false, solc_binary := none,
    solc_version := some "0.7.6", allow_empty := false }

/-- The same call with no explicit version. -/
def stdArgsB : StdArgs :=
  { stdArgsA with solc_version := none }

/-- A document whose single source entry points at an IPFS url. -/
def docIpfs : InputDoc :=
  { language := "Solidity",
    sources := [("a.sol", { content := none, urls := some ["ipfs://QmX"] })],
    settings := [], rest := [] }

/-! ### Helper lemmas -/

theorem listStarts_listHasSub {n h : List Char} (hs : listStarts n h = true) :
    listHasSub n h = true := by
  cases h with
  | nil => simpa [listHasSub] using hs
  | cons b bs => simp [listHasSub, hs]

theorem resolve_entry_no_urls (fs : String → Option String) {e : SourceEntry}
    (h : e.urls = none) : resolve_entry fs e = Except.ok e := by
  simp [resolve_entry, h]

theorem resolve_sources_id (fs : String → Option String) :
    ∀ {l : List (String × SourceEntry)}, (∀ p ∈ l, p.2.urls = none) →
      resolve_sources fs l = Except.ok l
  | [], _ => rfl
  | p :: t, h => by
    have hp := resolve_entry_no_urls fs (h p (List.mem_cons_self p t))
    have ht :=
      resolve_sources_id fs (fun q hq => h q (List.mem_cons_of_mem p hq))
    simp [resolve_sources, hp, ht]

theorem resolve_urls_id (fs : String → Option String) {doc : InputDoc}
    (h : ∀ p ∈ doc.sources, p.2.urls = none) :
    resolve_urls fs doc = Except.ok doc := by
  simp [resolve_urls, resolve_sources_id fs h]

theorem resolve_entry_not_missing (fs : String → Option String)
    (e : SourceEntry) :
    resolve_entry fs e ≠ Except.error CompileError.missingSource := by
  obtain ⟨c, u⟩ := e
  rcases u with _ | urls
  · simp [resolve_entry]
  · rcases hl : urls.getLast? with _ | u
    · simp [resolve_entry, hl]
    · rcases hrem : (strIn "ipfs://" u || strIn "bzzr:" u)
      · rcases hf : fs u with _ | c' <;> simp [resolve_entry, hl, hrem, hf]
      · simp [resolve_entry, hl, hrem]

theorem resolve_sources_not_missing (fs : String → Option String) :
    ∀ l : List (String × SourceEntry),
      resolve_sources fs l ≠ Except.error CompileError.missingSource
  | [] => by simp [resolve_sources]
  | p :: t => by
    rcases he : resolve_entry fs p.2 with e | x
    · have hne : e ≠ CompileError.missingSource := by
        intro h; exact resolve_entry_not_missing fs p.2 (h ▸ he)
      simp [resolve_sources, he, hne]
    · rcases ht : resolve_sources fs t with e2 | t2
      · have hne : e2 ≠ CompileError.missingSource := by
          intro h; exact resolve_sources_not_missing fs t (h ▸ ht)
        simp [resolve_sources, he, ht, hne]
      · simp [resolve_sources, he, ht]

theorem resolve_urls_not_missing (fs : String → Option String)
    (doc : InputDoc) :
    resolve_urls fs doc ≠ Except.error CompileError.missingSource := by
  rcases hs : resolve_sources fs doc.sources with e | s
  · have hne : e ≠ CompileError.missingSource := by
      intro h; exact resolve_sources_not_missing fs doc.sources (h ▸ hs)
    simp [resolve_urls, hs, hne]
  · simp [resolve_urls, hs]

theorem normalize_not_missing (name : String) (v : Option PyVal) :
    normalize_solidity_input name v ≠
      Except.error CompileError.missingSource := by
  rcases v with _ | (kvs | l | s) <;> simp [normalize_solidity_input]

theorem extract_std_not_missing (fs : String → Option String)
    (doc : InputDoc) (bp : Option String) :
    extract_combined_json_from_compile_standard fs doc bp ≠
      Except.error CompileError.missingSource := by
  intro h
  unfold extract_combined_json_from_compile_standard at h
  split at h
  · rename_i e heq
    injection h with h2
    exact resolve_urls_not_missing fs doc (h2 ▸ heq)
  · split at h
    · exact absurd h (by simp)
    · exact Except.noConfusion h

theorem finish_extract_not_missing (fs : String → Option String)
    (sources : List (String × SourceEntry)) (ir : Option PyVal)
    (bp : Option String) (ev : Option String) (rs : Option JVal)
    (mh : Option String) (ml : Bool) (op : Bool) (orr : Option Int)
    (oy : Bool) (yo : Option Int) :
    finish_extract fs sources ir bp ev rs mh ml op orr oy yo ≠
      Except.error CompileError.missingSource := by
  intro h
  unfold finish_extract at h
  split at h
  · exact absurd h (by simp)
  · split at h
    · rename_i e heq
      injection h with h2
      exact normalize_not_missing "remappings" ir (h2 ▸ heq)
    · split at h
      · rename_i e heq
        injection h with h2
        exact normalize_not_missing "evmVersion" (ev.map PyVal.scalar)
          (h2 ▸ heq)
      · exact extract_std_not_missing fs _ bp h

theorem resolve_sources_mem_error (fs : String → Option String) (n : String)
    (e : SourceEntry) (err : CompileError)
    (he : resolve_entry fs e = Except.error err) :
    ∀ l : List (String × SourceEntry), (n, e) ∈ l →
      ∃ err2, resolve_sources fs l = Except.error err2
  | [], hmem => absurd hmem (by simp)
  | p :: t, hmem => by
    rcases List.mem_cons.mp hmem with h | h
    · exact ⟨err, by simp [resolve_sources, ← h, he]⟩
    · rcases he2 : resolve_entry fs p.2 with e2 | x
      · exact ⟨e2, by simp [resolve_sources, he2]⟩
      · obtain ⟨err2, ht⟩ := resolve_sources_mem_error fs n e err he t h
        exact ⟨err2, by simp [resolve_sources, he2, ht]⟩

/-! ### Claims -/

/-- C9: URL resolution is idempotent: a document all of whose source
entries already carry `content` and no `urls` is a fixed point of
`_resolve_urls` — re-running resolution on it changes nothing. -/
theorem resolution_idempotent (fs : String → Option String) (doc : InputDoc)
    (h : ∀ p ∈ doc.sources, p.2.content ≠ none ∧ p.2.urls = none) :
    resolve_urls fs doc = Except.ok doc :=
  resolve_urls_id fs (fun p hp => (h p hp).2)

/-- Witness for C9 at a concrete two-source resolved document. -/
theorem resolution_idempotent_witness :
    resolve_urls fsB docA = Except.ok docA :=
  resolution_idempotent fsB docA (by decide)

/-- C1: a wrapped `compile_standard` call on a document whose source
entries all carry literal content and no location lists, with an explicit
compiler version, persists exactly one artifact whose `input` equals the
supplied document and whose `solcVersion` is the explicit version. -/
theorem compile_standard_round_trip {B : Type} (fs : String → Option String)
    (probe : Option String → Except CompileError String) (writeOk : Bool)
    (backend : StdArgs → B) (a : StdArgs) (v : String) (b : B)
    (hsrc : ∀ p ∈ a.input_data.sources, p.2.content ≠ none ∧ p.2.urls = none)
    (hver : a.solc_version = some v)
    (hok : (compile_standard_run fs probe writeOk backend a).result =
      Except.ok b) :
    (compile_standard_run fs probe writeOk backend a).written =
      [{ format := "hh-sol-build-info-1", solcVersion := v,
         input := a.input_data }] := by
  have hres : resolve_urls fs a.input_data = Except.ok a.input_data :=
    resolve_urls_id fs (fun p hp => (hsrc p hp).2)
  have hdet : determine_solidity_version probe a.solc_binary a.solc_version
      = Except.ok v := by
    simp [determine_solidity_version, hver]
  rcases hbp : a.base_path with _ | bp
  · have hext : extract_combined_json_from_compile_standard fs a.input_data
        a.base_path = Except.ok a.input_data := by
      simp [extract_combined_json_from_compile_standard, hres, hbp]
    cases hw : writeOk
    · simp [compile_standard_run, hext, hdet, save_artifacts, hw] at hok
    · simp [compile_standard_run, hext, hdet, save_artifacts, hw]
  · have hext : extract_combined_json_from_compile_standard fs a.input_data
        a.base_path = Except.error CompileError.unsupportedBasePath := by
      simp [extract_combined_json_from_compile_standard, hres, hbp]
    simp [compile_standard_run, hext] at hok

/-- Witness for C1 at a concrete two-source document with version 0.7.6. -/
theorem compile_standard_round_trip_witness :
    (compile_standard_run fsB probeA true (fun _ => (0 : Nat))
        stdArgsA).written =
      [{ format := "hh-sol-build-info-1", solcVersion := "0.7.6",
         input := docA }] :=
  compile_standard_round_trip fsB probeA true (fun _ => (0 : Nat)) stdArgsA
    "0.7.6" 0 (by decide) rfl rfl

/-- C2 counterexample: `compile_standard` called with no explicit version
invokes the original entry point with the resolved version substituted for
the caller's null `solc_version`, so the backend does not receive the
original, unmodified arguments. -/
theorem compile_standard_modified_args_cex :
    (compile_standard_run fsB probeA true (fun x => x)
        stdArgsB).backendCalls ≠ [stdArgsB] := by
  intro h
  have h2 : [{ stdArgsB with solc_version := some "0.7.6" }] = [stdArgsB] := h
  simp [stdArgsB, stdArgsA] at h2

/-- C2 amended: `compile_files` and `compile_source` invoke the original
entry point with the original, unmodified arguments and return its result
unchanged; `compile_standard` invokes it with the normalized document and
the resolved version substituted for the caller's `input_data` and
`solc_version` (all other arguments unchanged) and returns its result
unchanged. -/
theorem wrapped_delegation {B : Type} (fs : String → Option String)
    (probe : Option String → Except CompileError String) (writeOk : Bool)
    (fb : FilesArgs → B) (sb : SourceArgs → B) (stdb : StdArgs → B)
    (aF : FilesArgs) (aS : SourceArgs) (aStd : StdArgs) :
    (∀ b, (compile_files_run fs probe writeOk fb aF).result = Except.ok b →
      (compile_files_run fs probe writeOk fb aF).backendCalls = [aF] ∧
        b = fb aF) ∧
    (∀ b, (compile_source_run fs probe writeOk sb aS).result = Except.ok b →
      (compile_source_run fs probe writeOk sb aS).backendCalls = [aS] ∧
        b = sb aS) ∧
    (∀ input2 v,
      extract_combined_json_from_compile_standard fs aStd.input_data
          aStd.base_path = Except.ok input2 →
      determine_solidity_version probe aStd.solc_binary aStd.solc_version =
          Except.ok v →
      writeOk = true →
      (compile_standard_run fs probe writeOk stdb aStd).backendCalls =
          [{ aStd with input_data := input2, solc_version := some v }] ∧
        (compile_standard_run fs probe writeOk stdb aStd).result =
          Except.ok (stdb { aStd with
            input_data := input2,
            solc_version := some v })) := by
  refine ⟨?_, ?_, ?_⟩
  · intro b hb
    rcases hc : compile_combined_json fs probe writeOk aF.solc_binary
        aF.solc_version (some aF.source_files) aF.import_remappings
        aF.base_path aF.evm_version aF.revert_strings aF.metadata_hash
        aF.metadata_literal aF.optimize aF.optimize_runs false
        aF.yul_optimizations none with e | art
    · simp [compile_files_run, hc] at hb
    · refine ⟨by simp [compile_files_run, hc], ?_⟩
      simp [compile_files_run, hc] at hb
      exact hb.symm
  · intro b hb
    rcases hc : compile_combined_json fs probe writeOk aS.solc_binary
        aS.solc_version none aS.import_remappings
        aS.base_path aS.evm_version aS.revert_strings aS.metadata_hash
        aS.metadata_literal aS.optimize aS.optimize_runs false
        aS.yul_optimizations (some aS.source) with e | art
    · simp [compile_source_run, hc] at hb
    · refine ⟨by simp [compile_source_run, hc], ?_⟩
      simp [compile_source_run, hc] at hb
      exact hb.symm
  · intro input2 v h1 h2 h3
    subst h3
    constructor <;> simp [compile_standard_run, h1, h2, save_artifacts]

/-- Witness for C2's amended statement: each wrapped call at a concrete
success, with the arguments the backend received. -/
theorem wrapped_delegation_witness :
    (compile_files_run fsA probeA true (fun _ => (0 : Nat))
        filesArgsA).backendCalls = [filesArgsA] ∧
    (compile_source_run fsA probeA true (fun _ => (0 : Nat))
        sourceArgsA).backendCalls = [sourceArgsA] ∧
    (compile_standard_run fsA probeA true (fun _ => (0 : Nat))
        stdArgsA).backendCalls =
      [{ stdArgsA with input_data := docA, solc_version := some "0.7.6" }] :=
  ⟨((wrapped_delegation fsA probeA true (fun _ => (0 : Nat))
      (fun _ => (0 : Nat)) (fun _ => (0 : Nat)) filesArgsA sourceArgsA
      stdArgsA).1 0 rfl).1,
   ((wrapped_delegation fsA probeA true (fun _ => (0 : Nat))
      (fun _ => (0 : Nat)) (fun _ => (0 : Nat)) filesArgsA sourceArgsA
      stdArgsA).2.1 0 rfl).1,
   ((wrapped_delegation fsA probeA true (fun _ => (0 : Nat))
      (fun _ => (0 : Nat)) (fun _ => (0 : Nat)) filesArgsA sourceArgsA
      stdArgsA).2.2 docA "0.7.6" rfl rfl rfl).1⟩

/-- C3 counterexample: an empty local file does not fail resolution; the
entry is replaced by empty literal content. -/
theorem resolve_empty_content_cex :
    resolve_entry fsB { content := none, urls := some ["empty.sol"] } =
      Except.ok { content := some "", urls := none } := rfl

/-- C3 amended: a non-remote last location is read as a local file; the
call fails when the file is unreadable, and otherwise — even when the
content is empty — the entry is replaced by its literal content with the
location list discarded (the code's only emptiness guard compares the read
result to `None`, which a successful read never is). -/
theorem resolve_entry_local_read (fs : String → Option String)
    (e : SourceEntry) (us : List String) (u : String)
    (hu : e.urls = some us) (hl : us.getLast? = some u)
    (h1 : strIn "ipfs://" u = false) (h2 : strIn "bzzr:" u = false) :
    (fs u = none →
      resolve_entry fs e = Except.error (CompileError.openFailure u)) ∧
    (∀ c, fs u = some c →
      resolve_entry fs e = Except.ok { content := some c, urls := none }) := by
  constructor
  · intro hf
    simp [resolve_entry, hu, hl, h1, h2, hf]
  · intro c hf
    simp [resolve_entry, hu, hl, h1, h2, hf]

/-- Witness for C3's amended statement: an unreadable file fails, an empty
readable file resolves to empty content. -/
theorem resolve_entry_local_read_witness :
    resolve_entry fsB { content := none, urls := some ["missing.sol"] } =
      Except.error (CompileError.openFailure "missing.sol") ∧
    resolve_entry fsB { content := none, urls := some ["empty.sol"] } =
      Except.ok { content := some "", urls := none } :=
  ⟨(resolve_entry_local_read fsB _ ["missing.sol"] "missing.sol" rfl rfl
      (by decide) (by decide)).1 rfl,
   (resolve_entry_local_read fsB _ ["empty.sol"] "empty.sol" rfl rfl
      (by decide) (by decide)).2 "" rfl⟩

/-- C4 counterexample: a scalar `import_remappings` yields `remappings`
bound to the bare stringified value, not a single-element list; a mapping
raises `AttributeError` instead of producing `key=value` pairs. -/
theorem remappings_translation_cex :
    normalize_solidity_input "remappings" (some (PyVal.scalar "a=b")) ≠
      Except.ok [("remappings", JVal.strList ["a=b"])] ∧
    normalize_solidity_input "remappings" (some (PyVal.dict [("a", "b")])) =
      Except.error CompileError.attributeError := by
  constructor
  · simp [normalize_solidity_input]
  · rfl

/-- C4 amended: the settings translation binds `remappings` to the
stringified list when the option is a list, to the single stringified
value (not a list) when it is a scalar, produces no key at all when it is
null, and raises `AttributeError` when it is a mapping (`dict` has no
`iter` method, so the intended `key=value` stringification is
unreachable). -/
theorem remappings_translation (name : String)
    (kvs : List (String × String)) (l : List String) (s : String)
    (fs : String → Option String) (src : String) :
    normalize_solidity_input name none = Except.ok [] ∧
    normalize_solidity_input name (some (PyVal.list l)) =
      Except.ok [(name, JVal.strList l)] ∧
    normalize_solidity_input name (some (PyVal.scalar s)) =
      Except.ok [(name, JVal.str s)] ∧
    normalize_solidity_input name (some (PyVal.dict kvs)) =
      Except.error CompileError.attributeError ∧
    extract_combined_json_from_compile_combined_json fs none
      (some (PyVal.scalar s)) none none none none false false none false none
      (some src) =
      Except.ok
        { language := "Solidity",
          sources := [("<stdin>", { content := some src, urls := none })],
          settings := [("remappings", JVal.str s)], rest := [] } :=
  ⟨rfl, by simp [normalize_solidity_input], rfl, rfl, rfl⟩

/-- C5: `compile_files` does not forward `optimize_yul` to the artifact
pipeline (lines 134-155 omit it), so a call with `optimize_yul = true`
persists a document with no `settings.optimizer.details.yul` — here the
persisted settings are empty — even though the normalizer would have
produced that key had it received the flag. -/
theorem compile_files_drops_optimize_yul :
    filesArgsA.optimize_yul = true ∧
    (compile_files_run fsA probeA true (fun _ => (0 : Nat))
        filesArgsA).written =
      [{ format := "hh-sol-build-info-1", solcVersion := "0.7.6",
         input :=
           { language := "Solidity",
             sources :=
               [("c.sol", { content := some "contract C", urls := none })],
             settings := [], rest := [] } }] ∧
    optimizer_part false none true =
      [("optimizer",
        JVal.obj [("details", JVal.obj [("yul", JVal.bool true)])])] :=
  ⟨rfl, rfl, rfl⟩

/-- C6 counterexample: with both a source file and stdin supplied,
normalization succeeds using the file and ignores stdin, instead of
failing with `MissingSource`. -/
theorem both_sources_accepted_cex :
    extract_combined_json_from_compile_combined_json fsA
      (some (PySources.single "c.sol")) none none none none none false false
      none false none (some "stdin text") =
      Except.ok
        { language := "Solidity",
          sources :=
            [("c.sol", { content := some "contract C", urls := none })],
          settings := [], rest := [] } := rfl

/-- C6 amended: normalization on the files/source path fails with
`MissingSource` exactly when both `source_files` and `stdin` are null; the
two inputs are not mutually exclusive — when both are non-null,
`source_files` takes precedence and stdin is ignored. -/
theorem missing_source_iff (fs : String → Option String)
    (sf : Option PySources) (ir : Option PyVal) (bp : Option String)
    (ev : Option String) (rs : Option JVal) (mh : Option String) (ml : Bool)
    (op : Bool) (orr : Option Int) (oy : Bool) (yo : Option Int)
    (st : Option String) :
    extract_combined_json_from_compile_combined_json fs sf ir bp ev rs mh ml
        op orr oy yo st = Except.error CompileError.missingSource ↔
      (sf = none ∧ st = none) := by
  constructor
  · intro h
    rcases sf with _ | s
    · rcases st with _ | t
      · exact ⟨rfl, rfl⟩
      · exact absurd h
          (finish_extract_not_missing fs _ ir bp ev rs mh ml op orr oy yo)
    · rcases s with l | p
      · exact absurd h
          (finish_extract_not_missing fs _ ir bp ev rs mh ml op orr oy yo)
      · exact absurd h
          (finish_extract_not_missing fs _ ir bp ev rs mh ml op orr oy yo)
  · rintro ⟨rfl, rfl⟩
    rfl

/-- C7: if a wrapped call fails during normalization, version resolution,
or persistence, it writes no artifact and never invokes the backend. -/
theorem failed_call_writes_nothing {B : Type} (fs : String → Option String)
    (probe : Option String → Except CompileError String) (writeOk : Bool)
    (fb : FilesArgs → B) (sb : SourceArgs → B) (stdb : StdArgs → B)
    (aF : FilesArgs) (aS : SourceArgs) (aStd : StdArgs) :
    (∀ e, (compile_files_run fs probe writeOk fb aF).result =
        Except.error e →
      (compile_files_run fs probe writeOk fb aF).written = [] ∧
        (compile_files_run fs probe writeOk fb aF).backendCalls = []) ∧
    (∀ e, (compile_source_run fs probe writeOk sb aS).result =
        Except.error e →
      (compile_source_run fs probe writeOk sb aS).written = [] ∧
        (compile_source_run fs probe writeOk sb aS).backendCalls = []) ∧
    (∀ e, (compile_standard_run fs probe writeOk stdb aStd).result =
        Except.error e →
      (compile_standard_run fs probe writeOk stdb aStd).written = [] ∧
        (compile_standard_run fs probe writeOk stdb aStd).backendCalls =
          []) := by
  refine ⟨?_, ?_, ?_⟩
  · intro e he
    rcases hc : compile_combined_json fs probe writeOk aF.solc_binary
        aF.solc_version (some aF.source_files) aF.import_remappings
        aF.base_path aF.evm_version aF.revert_strings aF.metadata_hash
        aF.metadata_literal aF.optimize aF.optimize_runs false
        aF.yul_optimizations none with e2 | art
    · simp [compile_files_run, hc]
    · simp [compile_files_run, hc] at he
  · intro e he
    rcases hc : compile_combined_json fs probe writeOk aS.solc_binary
        aS.solc_version none aS.import_remappings
        aS.base_path aS.evm_version aS.revert_strings aS.metadata_hash
        aS.metadata_literal aS.optimize aS.optimize_runs false
        aS.yul_optimizations (some aS.source) with e2 | art
    · simp [compile_source_run, hc]
    · simp [compile_source_run, hc] at he
  · intro e he
    rcases h1 : extract_combined_json_from_compile_standard fs
        aStd.input_data aStd.base_path with e1 | d
    · simp [compile_standard_run, h1]
    · rcases h2 : determine_solidity_version probe aStd.solc_binary
          aStd.solc_version with e2 | v
      · simp [compile_standard_run, h1, h2]
      · rcases h3 : save_artifacts writeOk d v with e3 | art
        · simp [compile_standard_run, h1, h2, h3]
        · simp [compile_standard_run, h1, h2, h3] at he

/-- Witness for C7: a `compile_files` call rejected during normalization
and a `compile_standard` call whose artifact write fails. -/
theorem failed_call_writes_nothing_witness :
    ((compile_files_run fsA probeA true (fun _ => (0 : Nat))
        filesArgsBad).written = [] ∧
      (compile_files_run fsA probeA true (fun _ => (0 : Nat))
        filesArgsBad).backendCalls = []) ∧
    ((compile_standard_run fsA probeA false (fun _ => (0 : Nat))
        stdArgsA).written = [] ∧
      (compile_standard_run fsA probeA false (fun _ => (0 : Nat))
        stdArgsA).backendCalls = []) :=
  ⟨(failed_call_writes_nothing fsA probeA true (fun _ => (0 : Nat))
      (fun _ => (0 : Nat)) (fun _ => (0 : Nat)) filesArgsBad sourceArgsA
      stdArgsA).1 CompileError.unsupportedYulOptimizations rfl,
   (failed_call_writes_nothing fsA probeA false (fun _ => (0 : Nat))
      (fun _ => (0 : Nat)) (fun _ => (0 : Nat)) filesArgsBad sourceArgsA
      stdArgsA).2.2 CompileError.persistenceFailure rfl⟩

/-- C8: a last location whose scheme is IPFS-style or Swarm-style (the
location starts with `ipfs://` or `bzzr:`) makes per-entry resolution
fail with the `UnsupportedRemoteSource` cause, and makes document-level
URL resolution fail before normalization completes. -/
theorem remote_scheme_rejected (fs : String → Option String)
    (doc : InputDoc) (n : String) (e : SourceEntry) (us : List String)
    (u : String) (hu : e.urls = some us) (hl : us.getLast? = some u)
    (hs : listStarts "ipfs://".data u.data = true ∨
      listStarts "bzzr:".data u.data = true) :
    resolve_entry fs e =
        Except.error (CompileError.unsupportedRemoteSource u) ∧
      ((n, e) ∈ doc.sources →
        ∃ err, resolve_urls fs doc = Except.error err) := by
  have hin : (strIn "ipfs://" u || strIn "bzzr:" u) = true := by
    rcases hs with h | h
    · simp [strIn, listStarts_listHasSub h]
    · simp [strIn, listStarts_listHasSub h]
  have hent : resolve_entry fs e =
      Except.error (CompileError.unsupportedRemoteSource u) := by
    simp [resolve_entry, hu, hl, hin]
  refine ⟨hent, fun hmem => ?_⟩
  obtain ⟨err2, hsrc⟩ :=
    resolve_sources_mem_error fs n e
      (CompileError.unsupportedRemoteSource u) hent doc.sources hmem
  exact ⟨err2, by simp [resolve_urls, hsrc]⟩

/-- Witness for C8 at a concrete IPFS url. -/
theorem remote_scheme_rejected_witness :
    resolve_entry fsB { content := none, urls := some ["ipfs://QmX"] } =
        Except.error (CompileError.unsupportedRemoteSource "ipfs://QmX") ∧
      ∃ err, resolve_urls fsB docIpfs = Except.error err :=
  have h := remote_scheme_rejected fsB docIpfs "a.sol"
    { content := none, urls := some ["ipfs://QmX"] } ["ipfs://QmX"]
    "ipfs://QmX" rfl rfl (Or.inl (by decide))
  ⟨h.1, h.2 (by decide)⟩

/-- C10: the remote rejection is substring containment on the last
location: any occurrence of `ipfs://` or `bzzr:` — even inside a local
filesystem path — raises the remote-source error, and a last location
without those substrings (such as an http URL) is never rejected by this
check. -/
theorem remote_check_is_substring (fs : String → Option String)
    (e : SourceEntry) (us : List String) (u : String)
    (hu : e.urls = some us) (hl : us.getLast? = some u) :
    ((strIn "ipfs://" u || strIn "bzzr:" u) = true →
      resolve_entry fs e =
        Except.error (CompileError.unsupportedRemoteSource u)) ∧
    ((strIn "ipfs://" u || strIn "bzzr:" u) = false →
      ∀ s, resolve_entry fs e ≠
        Except.error (CompileError.unsupportedRemoteSource s)) := by
  constructor
  · intro hc
    simp [resolve_entry, hu, hl, hc]
  · intro hc s
    rcases hf : fs u with _ | c <;> simp [resolve_entry, hu, hl, hc, hf]

/-- Witness for C10: a local path merely embedding `ipfs://` is rejected;
an http URL passes the remote check. -/
theorem remote_check_is_substring_witness :
    resolve_entry fsB
        { content := none, urls := some ["/tmp/ipfs://cache/a.sol"] } =
      Except.error
        (CompileError.unsupportedRemoteSource "/tmp/ipfs://cache/a.sol") ∧
    resolve_entry fsB
        { content := none, urls := some ["http://host/a.sol"] } ≠
      Except.error
        (CompileError.unsupportedRemoteSource "http://host/a.sol") :=
  ⟨(remote_check_is_substring fsB _ ["/tmp/ipfs://cache/a.sol"]
      "/tmp/ipfs://cache/a.sol" rfl rfl).1 (by decide),
   (remote_check_is_substring fsB _ ["http://host/a.sol"]
      "http://host/a.sol" rfl rfl).2 (by decide) "http://host/a.sol"⟩

end AuditlessSolcx
